import Mathlib

/-!
Verification development for the BeejMantra crop-leaf diagnosis core.

The Python source (`backend/ml_service/deepleaf_inference.py` and
`backend/ml_service/app.py`) is shallowly embedded here:

* Python strings are embedded as `List Char` (with `String` wrappers at the
  interfaces); the string primitives used by the source (`str.split(sep, 1)`,
  `str.replace`, `str.strip`, `str.split()`, `str.capitalize`, `str.lower`,
  `in`-substring tests, `startswith`) are implemented from scratch below so
  that both concrete evaluation (`decide`) and induction are available.
* Python floats are embedded as exact rationals `ℚ`; `int(x)` is embedded as
  truncation toward zero, numpy `argmax` as first-maximum index.
* The external pure collaborators (PIL decode+resize, the CNN forward pass,
  MD5) are parameters of the pipeline: the embedding of `predict_disease`
  takes the extracted 128×128 channel statistics, the MD5 value of the
  resized buffer, the model probability vector and the class map as inputs,
  exactly the data the source computes from the image via those libraries.
-/

/-- Python `s.startswith(pat)` on character lists: first argument is the
pattern, second the scanned list. -/
def lstartsWith : List Char → List Char → Bool
  | [], _ => true
  | _ :: _, [] => false
  | p :: ps, c :: cs => p == c && lstartsWith ps cs

/-- Python `s.split(sep, 1)`: split at the first occurrence of `sep`,
returning the two pieces, or `none` when `sep` does not occur.  For the
non-empty separators used by the source this also decides Python's
`sep in s` substring test. -/
def splitFirst (sep : List Char) : List Char → Option (List Char × List Char)
  | [] => none
  | c :: rest =>
    if lstartsWith sep (c :: rest) then some ([], (c :: rest).drop sep.length)
    else
      match splitFirst sep rest with
      | some (a, b) => some (c :: a, b)
      | none => none

/-- Python `sub in s` substring containment (for non-empty `sub`). -/
def lcontains (sub : List Char) (s : List Char) : Bool :=
  (splitFirst sub s).isSome

/-- Fuel-driven worker for `replaceAll`; the fuel is an upper bound on the
length of the scanned list, so the translation is exact for
`fuel = l.length`. -/
def replaceAllAux (pat rep : List Char) : Nat → List Char → List Char
  | 0, l => l
  | _ + 1, [] => []
  | fuel + 1, c :: rest =>
    if pat ≠ [] ∧ lstartsWith pat (c :: rest) then
      rep ++ replaceAllAux pat rep fuel ((c :: rest).drop pat.length)
    else
      c :: replaceAllAux pat rep fuel rest

/-- Python `s.replace(pat, rep)`: non-overlapping left-to-right replacement,
continuing after each replacement. -/
def replaceAll (pat rep l : List Char) : List Char :=
  replaceAllAux pat rep l.length l

/-- Python `s.strip()`: drop leading and trailing whitespace. -/
def pyStrip (l : List Char) : List Char :=
  ((l.dropWhile Char.isWhitespace).reverse.dropWhile Char.isWhitespace).reverse

/-- Python `s.split()` (no separator): maximal runs of non-whitespace. -/
def pyWords : List Char → List (List Char)
  | [] => []
  | c :: rest =>
    if c.isWhitespace then pyWords rest
    else
      match pyWords rest with
      | [] => [[c]]
      | w :: ws =>
        match rest with
        | [] => [[c]]
        | r :: _ => if r.isWhitespace then [c] :: w :: ws else (c :: w) :: ws

/-- Python `s.capitalize()`: first character upper-cased, the rest
lower-cased. -/
def pyCapitalize : List Char → List Char
  | [] => []
  | c :: rest => c.toUpper :: rest.map Char.toLower

/-- Python `s.lower()` on ASCII text. -/
def toLowerL (l : List Char) : List Char := l.map Char.toLower

/-- Python `sep.join(parts)`. -/
def joinWith (sep : List Char) : List (List Char) → List Char
  | [] => []
  | [w] => w
  | w :: ws => w ++ sep ++ joinWith sep ws

/-- Python `s.split(ch)` for a single-character separator (empty pieces
kept). -/
def splitChar (ch : Char) : List Char → List (List Char)
  | [] => [[]]
  | c :: rest =>
    match splitChar ch rest with
    | [] => [[]]
    | h :: t => if c = ch then [] :: h :: t else (c :: h) :: t

/-- `pathlib.Path(label).stem`: the final path component without its last
suffix (a suffix needs an inner dot that is neither leading nor trailing). -/
def pathStem (l : List Char) : List Char :=
  let name := (l.reverse.takeWhile (fun c => c ≠ '/')).reverse
  match name.reverse.findIdx? (fun c => c = '.') with
  | some k =>
    let n := name.length
    if 0 < n - 1 - k ∧ 1 ≤ k then name.take (n - 1 - k) else name
  | none => name

/-- Python `int(x)` on a rational: truncation toward zero. -/
def pyInt (q : ℚ) : ℤ := if q < 0 then ⌈q⌉ else ⌊q⌋

/-- Python `round(x, 2)` (modulo the half-ulp tie-breaking of binary
floats, which no claim exercises). -/
def round2 (q : ℚ) : ℚ := ((round (q * 100) : ℤ) : ℚ) / 100

/-! ## Color features and symptom detection (`deepleaf_inference.py`) -/

/-- Per-channel statistics of the 128×128-resized image, as produced by the
numpy code in `_extract_color_features` / `fallback_prediction`:
per-channel means and the mean of the per-channel standard deviations, all
over pixel values scaled to `[0,1]`. -/
structure RawStats where
  mean_r : ℚ
  mean_g : ℚ
  mean_b : ℚ
  std_rgb : ℚ
deriving DecidableEq

/-- `brightness = mean of the per-channel means`. -/
def brightness (s : RawStats) : ℚ := (s.mean_r + s.mean_g + s.mean_b) / 3

/-- `green_dominance = mean_g - (mean_r + mean_b)/2`. -/
def green_dominance (s : RawStats) : ℚ := s.mean_g - (s.mean_r + s.mean_b) / 2

/-- `yellow_tint = mean_r + mean_g - mean_b * 1.4`. -/
def yellow_tint (s : RawStats) : ℚ := s.mean_r + s.mean_g - s.mean_b * 1.4

/-- `dryness = ((1 - mean_g) + mean_r) / 2`. -/
def dryness (s : RawStats) : ℚ := ((1 - s.mean_g) + s.mean_r) / 2

/-- The five boolean symptom flags of `_detect_symptoms`. -/
structure Symptoms where
  discoloration : Bool
  chlorosis : Bool
  necrotic_spots : Bool
  wilting : Bool
  abnormal_texture : Bool
deriving DecidableEq

/-- Symptom flags from color features, mirroring `_detect_symptoms`. -/
def detectFlags (s : RawStats) : Symptoms where
  discoloration := decide (s.std_rgb > 0.20) && decide (brightness s < 0.85)
  chlorosis := decide (yellow_tint s > 0.16) && decide (green_dominance s < 0.06)
  necrotic_spots := decide (s.std_rgb > 0.26) && decide (brightness s < 0.7)
  wilting := decide (dryness s > 0.55) && decide (brightness s < 0.55)
  abnormal_texture := decide (s.std_rgb > 0.23) && decide (|green_dominance s| < 0.10)

/-- Health score of `_detect_symptoms`: start at 92, subtract the per-flag
penalties and the yellowing/dryness penalties, clamp to `[40, 97]`. -/
def healthScore (s : RawStats) : ℚ :=
  let f := detectFlags s
  let hs := (92 : ℚ)
    - (if f.discoloration then 12 else 0)
    - (if f.chlorosis then 18 else 0)
    - (if f.necrotic_spots then 18 else 0)
    - (if f.wilting then 15 else 0)
    - (if f.abnormal_texture then 10 else 0)
    - max 0 ((yellow_tint s - 0.10) * 80)
    - max 0 ((dryness s - 0.5) * 50)
  max 40 (min 97 hs)

/-- `any(symptoms.values())`. -/
def hasAnySymptom (f : Symptoms) : Bool :=
  f.discoloration || f.chlorosis || f.necrotic_spots || f.wilting || f.abnormal_texture

/-- `sum(1 for v in symptoms.values() if v)`. -/
def symptomCount (f : Symptoms) : ℕ :=
  (if f.discoloration then 1 else 0) + (if f.chlorosis then 1 else 0)
    + (if f.necrotic_spots then 1 else 0) + (if f.wilting then 1 else 0)
    + (if f.abnormal_texture then 1 else 0)

/-! ## Label parsing (`_humanize_label`, `_derive_crop_from_label`) -/

/-- Result of `_humanize_label`: display name, optional crop token, disease
key and the healthy flag. -/
structure ParsedLabel where
  display : String
  crop : Option String
  disease_key : String
  is_healthy : Bool
deriving DecidableEq

/-- The `_clean` helper inside `_humanize_label`: collapse underscores to
spaces, strip, drop the literal `(maize)` marker, capitalize each word. -/
def cleanCore (text : List Char) : List Char :=
  let t1 := replaceAll "__".data "_".data text
  let t2 := replaceAll "___".data "_".data t1
  let t3 := pyStrip (replaceAll "_".data " ".data t2)
  let t4 := replaceAll "(maize)".data "".data t3
  pyStrip (joinWith " ".data ((pyWords t4).map pyCapitalize))

/-- Core of `_humanize_label` on character lists: split on the first
`"___"`, else `"__"`, else the first `"_"`; clean both pieces; detect
`healthy`; derive the display name. -/
def humanizeCore (label : List Char) :
    List Char × Option (List Char) × List Char × Bool :=
  let pieces :=
    match splitFirst "___".data label with
    | some ab => ab
    | none =>
      match splitFirst "__".data label with
      | some ab => ab
      | none =>
        match splitFirst "_".data label with
        | some ab => ab
        | none => (label, [])
  let crop := cleanCore pieces.1
  let disease := pyStrip (replaceAll "  ".data " ".data (cleanCore pieces.2))
  let healthy :=
    lcontains "healthy".data (toLowerL disease)
      || lcontains "healthy".data (toLowerL label)
  let display :=
    if healthy then "Healthy Plant".data
    else
      let d :=
        if lstartsWith crop disease then pyStrip (disease.drop crop.length)
        else disease
      if lstartsWith "-".data d then pyStrip (d.drop 1) else d
  (display, (if crop = [] then none else some (toLowerL crop)), disease, healthy)

/-- `_humanize_label` on `String`s. -/
def _humanize_label (label : String) : ParsedLabel :=
  let r := humanizeCore label.data
  ⟨String.mk r.1, r.2.1.map String.mk, String.mk r.2.2.1, r.2.2.2⟩

/-- The crop-token vocabulary scanned by `_derive_crop_from_label`. -/
def cropTokenSet : List (List Char) :=
  (["wheat", "rice", "paddy", "maize", "corn", "cotton", "tomato", "potato",
    "soybean", "grape", "apple", "pepper"].map String.data)

/-- Token-scan fallback of `_derive_crop_from_label`:
`Path(label).stem.replace('-', '_').split('_')`, first token in the
vocabulary wins, `corn` mapped to `maize`. -/
def deriveTokens (label : List Char) : Option (List Char) :=
  (splitChar '_' ((pathStem label).map (fun c => if c = '-' then '_' else c))).findSome?
    fun t =>
      let tl := toLowerL t
      if cropTokenSet.contains tl then
        some (if tl = "corn".data then "maize".data else tl)
      else none

/-- Core of `_derive_crop_from_label`: normalize `"__"` to `"___"`, take the
prefix before the first `"___"` when present (lower-cased, stripped) with
corn spellings mapped to `maize`; otherwise scan tokens. -/
def deriveCropCore (label : List Char) : Option (List Char) :=
  let base := replaceAll "__".data "___".data label
  match splitFirst "___".data base with
  | some ab =>
    let crop := toLowerL (pyStrip ab.1)
    if crop ≠ [] then
      some (if crop = "corn_(maize)".data ∨ crop = "corn".data then "maize".data else crop)
    else deriveTokens label
  | none => deriveTokens label

/-- `_derive_crop_from_label` on `String`s. -/
def _derive_crop_from_label (label : String) : Option String :=
  (deriveCropCore label.data).map String.mk

/-! ## Result dictionaries -/

/-- A JSON-ish value of the result dictionaries. -/
inductive JVal where
  | str : String → JVal
  | num : ℚ → JVal
  | null : JVal
deriving DecidableEq

/-- A result dictionary: ordered key/value pairs, as built by the source's
dict literals. -/
abbrev DiagResult := List (String × JVal)

/-- Dictionary lookup on a result. -/
def getField (r : DiagResult) (k : String) : Option JVal :=
  (r.find? (fun p => p.1 == k)).map Prod.snd

/-- Encode an optional string as a JSON value (`None` becomes `null`). -/
def optStrJ : Option String → JVal
  | some s => JVal.str s
  | none => JVal.null

/-- A cause/solution/prevention triple. -/
structure Recommendation where
  cause : String
  solution : String
  prevention : String
deriving DecidableEq

/-- `_recommendations_for_label`: keyword lookup over the disease key, in
the source's precedence order. -/
def _recommendations_for_label (disease_name : String) (is_h : Bool) :
    Recommendation :=
  let name := toLowerL disease_name.data
  if is_h then
    ⟨"No disease detected - Plant is healthy.",
     "Continue balanced nutrition, irrigation and weekly scouting.",
     "Maintain crop rotation, monitor pests, keep fields weed-free."⟩
  else if lcontains "blight".data name then
    ⟨"Fungal infection thriving in humid, stagnant air.",
     "Spray Mancozeb/Chlorothalonil, remove infected leaves, improve drainage.",
     "Avoid overhead irrigation, ensure spacing, rotate crops every season."⟩
  else if lcontains "rust".data name then
    ⟨"Rust spores spread by wind and dew on leaves.",
     "Apply systemic fungicide (triazole group), prune severely affected foliage.",
     "Plant resistant hybrids, sanitize tools, avoid working wet fields."⟩
  else if lcontains "spot".data name || lcontains "mosaic".data name then
    ⟨"Bacterial or viral lesions spread via splashing water or insects.",
     "Remove infected leaves, spray copper/bactericide, control sucking pests.",
     "Use certified seedlings, disinfect tools, mulch to limit splash."⟩
  else if lcontains "mildew".data name || lcontains "mold".data name then
    ⟨"Powdery spores colonize shaded leaves during humid nights.",
     "Spray sulfur or potassium bicarbonate, trim crowded shoots.",
     "Improve sunlight penetration, reduce nitrogen spikes, monitor weekly."⟩
  else
    ⟨"Pathogen stress (fungal/bacterial).",
     "Use appropriate fungicide/bactericide, remove affected leaves, ensure airflow.",
     "Rotate crops, maintain sanitation, avoid waterlogging."⟩

/-- The static `FALLBACK_LIBRARY` table. -/
def FALLBACK_LIBRARY : List (String × Recommendation) :=
  [("Leaf Blight",
    ⟨"Fungal pathogens thrive in humid canopies with poor airflow.",
     "Remove infected leaves, spray copper fungicide, improve ventilation.",
     "Avoid overhead irrigation, ensure spacing, rotate crops yearly."⟩),
   ("Rust",
    ⟨"Rust spores spread by wind during warm humid spells.",
     "Apply systemic fungicide (triazole group) and trim infected leaves.",
     "Use resistant varieties, sanitize tools, keep foliage dry."⟩),
   ("Leaf Spot",
    ⟨"Bacterial/fungal spots triggered by splashing water and dew.",
     "Spray Mancozeb or Chlorothalonil, avoid working plants when wet.",
     "Mulch soil, favor drip irrigation, rotate host crops."⟩),
   ("Powdery Mildew",
    ⟨"Powdery spores colonize shaded leaves with dry days/humid nights.",
     "Apply potassium bicarbonate or sulfur spray, prune crowded shoots.",
     "Increase sunlight penetration, avoid high nitrogen, monitor weekly."⟩),
   ("Nutrient Deficiency",
    ⟨"Imbalance in nitrogen/potassium and micronutrients causing chlorosis.",
     "Apply balanced NPK plus micronutrients, add compost tea foliar feed.",
     "Test soil each season, maintain organic matter, ensure drainage."⟩)]

/-- Library lookup (total; every key used by the source is present). -/
def libLookup (k : String) : Recommendation :=
  ((FALLBACK_LIBRARY.find? (fun p => p.1 == k)).map Prod.snd).getD ⟨"", "", ""⟩

/-! ## Heuristic fallback classifier (`fallback_prediction`) -/

/-- The deterministic tie-breaker of `fallback_prediction`:
`(md5(buffer) % 23) / 40`, applied to the MD5 value of the resized pixel
buffer. -/
def rng_boost (md5v : ℕ) : ℚ := ((md5v % 23 : ℕ) : ℚ) / 40

/-- Default provenance string of the trained model. -/
def MODEL_VERSION : String := "DeepLeaf v2.0"

/-- The six-branch first-match-wins label choice of `fallback_prediction`,
returning the label, its recommendation entry and the base confidence. -/
def fallbackChoice (s : RawStats) : String × Recommendation × ℤ :=
  if green_dominance s > 0.04 ∧ yellow_tint s < 0.08 ∧ dryness s < 0.55
      ∧ (0.30 < brightness s ∧ brightness s < 0.85) then
    ("Healthy Crop",
     ⟨"No clear disease patterns detected – foliage appears healthy and well nourished.",
      "Maintain your current irrigation and nutrition schedule; continue routine scouting.",
      "Keep following good agronomy practices: crop rotation, balanced fertiliser and timely pest monitoring."⟩,
     82)
  else if s.std_rgb > 0.20 then ("Leaf Spot", libLookup "Leaf Spot", 65)
  else if yellow_tint s > 0.18 then
    ("Nutrient Deficiency", libLookup "Nutrient Deficiency", 67)
  else if dryness s > 0.55 ∧ brightness s < 0.45 then
    ("Leaf Blight", libLookup "Leaf Blight", 66)
  else if green_dominance s < -0.08 ∧ s.mean_r > 0.4 then
    ("Rust", libLookup "Rust", 66)
  else ("Powdery Mildew", libLookup "Powdery Mildew", 64)

/-- The clamped integer confidence of `fallback_prediction`:
`max(60, min(base + int((|gd| + std + rng_boost) * 20), 93))`. -/
def fallbackConfInt (s : RawStats) (md5v : ℕ) : ℤ :=
  max 60 (min ((fallbackChoice s).2.2
    + pyInt ((|green_dominance s| + s.std_rgb + rng_boost md5v) * 20)) 93)

/-- `fallback_prediction`: the heuristic result dictionary.  `s` and `md5v`
are the channel statistics and MD5 value of the 128×128 resized buffer of
the same image (the source recomputes them with the identical code path
used by `_extract_color_features`). -/
def fallback_prediction (s : RawStats) (md5v : ℕ) (reason : String)
    (default_crop : Option String) : DiagResult :=
  let c := fallbackChoice s
  [("prediction", JVal.str c.1),
   ("disease", JVal.str c.1),
   ("confidence", JVal.num ((fallbackConfInt s md5v : ℤ) : ℚ)),
   ("modelVersion", JVal.str ("heuristic_fallback ("
      ++ (if reason = "" then "no_model" else reason) ++ ")")),
   ("cropType", optStrJ default_crop),
   ("cause", JVal.str c.2.1.cause),
   ("suggestions", JVal.str c.2.1.solution),
   ("prevention", JVal.str c.2.1.prevention)]

/-! ## Two-stage health gate and disease resolver (`predict_disease`) -/

/-- Worker for `argmax`. -/
def argmaxAux : List ℚ → ℕ → ℕ → ℚ → ℕ
  | [], _, best, _ => best
  | x :: rest, i, best, bv =>
    if bv < x then argmaxAux rest (i + 1) i x else argmaxAux rest (i + 1) best bv

/-- `np.argmax`: index of the first maximum (0 on an empty vector). -/
def argmax : List ℚ → ℕ
  | [] => 0
  | x :: rest => argmaxAux rest 1 0 x

/-- The model's top-1 probability. -/
def topProb (probs : List ℚ) : ℚ := probs.getD (argmax probs) 0

/-- `top_conf`: the top-1 probability as a percentage. -/
def topConf (probs : List ℚ) : ℚ := topProb probs * 100

/-- The top-3 `(index, probability)` pairs in descending probability order
(`np.argsort(probs)[-3:][::-1]`; ties, which numpy orders arbitrarily, are
resolved here by original index). -/
def top3 (probs : List ℚ) : List (ℕ × ℚ) :=
  (List.insertionSort (fun a b : ℕ × ℚ => b.2 ≤ a.2) probs.enum).take 3

/-- Scan of the top-3 classes for one whose label contains `healthy`
(case-insensitive), as in Stage 1. -/
def healthyPick (probs : List ℚ) (lbl : ℕ → Option String) : Option (ℕ × ℚ) :=
  (top3 probs).find?
    (fun p => lcontains "healthy".data (toLowerL ((lbl p.1).getD "").data))

/-- `healthy_score_model`: the probability (as a percentage) of the healthy
class found in the top 3, or 0. -/
def healthyConfModel (probs : List ℚ) (lbl : ℕ → Option String) : ℚ :=
  match healthyPick probs lbl with
  | some p => p.2 * 100
  | none => 0

/-- The top-1 raw label, with the `Class_<idx>` default of the source. -/
def rawLabel (probs : List ℚ) (lbl : ℕ → Option String) : String :=
  (lbl (argmax probs)).getD ("Class_" ++ toString (argmax probs))

/-- `healthy_score_combined = 0.6*(health_score + max(0, green_dominance*90))
+ 0.4*healthy_score_model`. -/
def healthyScoreCombined (s : RawStats) (probs : List ℚ)
    (lbl : ℕ → Option String) : ℚ :=
  0.6 * (healthScore s + max 0 (green_dominance s * 90))
    + 0.4 * healthyConfModel probs lbl

/-- `unhealthy_score = top_conf + symptom_count * 8`. -/
def unhealthyScore (s : RawStats) (probs : List ℚ) : ℚ :=
  topConf probs + (symptomCount (detectFlags s) : ℚ) * 8

/-- The Stage-1 binary health decision `is_unhealthy`. -/
def isUnhealthyGate (s : RawStats) (probs : List ℚ)
    (lbl : ℕ → Option String) : Bool :=
  decide (healthyScoreCombined s probs lbl ≤ unhealthyScore s probs)
    && (hasAnySymptom (detectFlags s) || decide ((70 : ℚ) ≤ topConf probs))

/-- The healthy short-circuit result of Stage 1. -/
def healthyResult (s : RawStats) (probs : List ℚ)
    (lbl : ℕ → Option String) : DiagResult :=
  let yellow_penalty := max 0 ((yellow_tint s - 0.10) * 80)
  let conf := max 60 (min 97 (healthyScoreCombined s probs lbl - yellow_penalty))
  let primary_crop := _derive_crop_from_label
    (match healthyPick probs lbl with
     | some p => (lbl p.1).getD ""
     | none => rawLabel probs lbl)
  [("healthStatus", JVal.str "healthy"),
   ("prediction", JVal.str "Healthy Crop"),
   ("disease", JVal.str "Healthy Crop"),
   ("confidence", JVal.num (round2 conf)),
   ("modelVersion", JVal.str MODEL_VERSION),
   ("cropType", optStrJ primary_crop),
   ("note", JVal.str "No visible disease or nutrient deficiency detected"),
   ("cause", JVal.str "No disease patterns or stress symptoms detected in the image."),
   ("suggestions", JVal.str "Continue regular irrigation, balanced fertiliser and field scouting."),
   ("prevention", JVal.str "Maintain crop rotation, monitor pests and keep field weed‑free.")]

/-- Rendering of `f"{confidence:.1f}"` for the low-confidence reason string
(display-only; no claim inspects the digits). -/
def fmt1f (q : ℚ) : String :=
  let n : ℤ := round (q * 10)
  toString (n / 10) ++ "." ++ toString (n % 10)

/-- The Stage-2 unhealthy result dictionary. -/
def unhealthyResult (p : ParsedLabel) (conf : ℚ) : DiagResult :=
  let rcm := _recommendations_for_label p.disease_key p.is_healthy
  [("healthStatus", JVal.str "unhealthy"),
   ("prediction", JVal.str (if ¬p.is_healthy then p.display else "Healthy Crop")),
   ("disease", JVal.str p.display),
   ("confidence", JVal.num (round2 conf)),
   ("modelVersion", JVal.str MODEL_VERSION),
   ("cropType", optStrJ p.crop),
   ("note", JVal.str (if ¬p.is_healthy then ""
      else "No visible disease or nutrient deficiency detected")),
   ("cause", JVal.str rcm.cause),
   ("suggestions", JVal.str rcm.solution),
   ("prevention", JVal.str rcm.prevention)]

/-- `predict_disease`: the two-stage pipeline, over the extracted 128×128
channel statistics `s`, the MD5 value `md5v` of the resized buffer, the
model probability vector and the class map. -/
def predict_disease (s : RawStats) (md5v : ℕ) (probs : List ℚ)
    (lbl : ℕ → Option String) : DiagResult :=
  if isUnhealthyGate s probs lbl then
    let p := _humanize_label (rawLabel probs lbl)
    if topConf probs < 30 then
      fallback_prediction s md5v ("low_conf(" ++ fmt1f (topConf probs) ++ ")") p.crop
    else
      let confidence :=
        if ¬p.is_healthy ∧ 80 < topConf probs
            ∧ symptomCount (detectFlags s) < 2 then (80 : ℚ)
        else topConf probs
      unhealthyResult p confidence
  else healthyResult s probs lbl

/-- The pure external collaborators of one diagnosis call: feature
extraction at 128×128, the resized pixel buffer, MD5, the CNN forward pass
and the cached class map.  All are fixed functions of the image bytes. -/
structure PipelineEnv where
  stats128 : List ℕ → RawStats
  buf128 : List ℕ → List ℕ
  md5 : List ℕ → ℕ
  modelProbs : List ℕ → List ℚ
  classMap : ℕ → Option String

/-- `diagnose`: `predict_disease` as a function of the raw image bytes,
with the external collaborators supplied by `env`. -/
def diagnose (env : PipelineEnv) (image : List ℕ) : DiagResult :=
  predict_disease (env.stats128 image) (env.md5 (env.buf128 image))
    (env.modelProbs image) env.classMap

/-! ## Crop-conditioned probability adjustment (`app.py`) -/

/-- The fixed crop vocabulary (identical in `model_architecture.py` and the
`app.py` fallback copy). -/
def CROP_TYPES : List String :=
  ["Paddy", "Wheat", "Maize", "Cotton", "Sugarcane", "Soybean",
   "Chickpea", "Mustard", "Groundnut", "Potato", "Onion", "Tomato"]

/-- `get_crop_type_index`: vocabulary index, 0 when the crop is unknown. -/
def get_crop_type_index (crop : String) : ℕ :=
  (CROP_TYPES.findIdx? (fun c => c == crop)).getD 0

/-- The legacy-path adjustment magnitude:
`0.30 * (0.6 + (crop_idx % 9) * 0.1)`. -/
def legacyCropAdjustment (idx : ℕ) : ℚ :=
  0.30 * (0.6 + ((idx % 9 : ℕ) : ℚ) * 0.1)

/-- The multi-modal-path adjustment magnitude:
`0.15 * (0.5 + (crop_idx % 10) * 0.1)`. -/
def multiCropAdjustment (idx : ℕ) : ℚ :=
  0.15 * (0.5 + ((idx % 10 : ℕ) : ℚ) * 0.1)

/-- `health_pred / (health_pred.sum() + 1e-8)` on a probability triple. -/
def normalize3 (p : ℚ × ℚ × ℚ) : ℚ × ℚ × ℚ :=
  let sum := p.1 + p.2.1 + p.2.2 + 1e-8
  (p.1 / sum, p.2.1 / sum, p.2.2 / sum)

/-- The multi-modal-path crop adjustment of `analyze_image` on the 3-way
health probability vector. -/
def multiAdjust (idx : ℕ) (p : ℚ × ℚ × ℚ) : ℚ × ℚ × ℚ :=
  let a := multiCropAdjustment idx
  normalize3 <|
    if idx % 3 = 0 then
      (min 1 (p.1 + a), max 0 (p.2.1 - a * 0.7), max 0 (p.2.2 - a * 0.5))
    else if idx % 3 = 1 then
      (max 0 (p.1 - a * 0.5), min 1 (p.2.1 + a), max 0 (p.2.2 - a * 0.7))
    else
      (max 0 (p.1 - a * 0.6), max 0 (p.2.1 - a * 0.4), min 1 (p.2.2 + a))

/-- The legacy-path crop adjustment of `analyze_image` on the 3-way health
probability vector. -/
def legacyAdjust (idx : ℕ) (p : ℚ × ℚ × ℚ) : ℚ × ℚ × ℚ :=
  let a := legacyCropAdjustment idx
  normalize3 <|
    if idx % 3 = 0 then
      (min 1 (p.1 + a), max 0 (p.2.1 - a * 0.8), max 0 (p.2.2 - a * 0.6))
    else if idx % 3 = 1 then
      (max 0 (p.1 - a * 0.6), min 1 (p.2.1 + a), max 0 (p.2.2 - a * 0.8))
    else
      (max 0 (p.1 - a * 0.7), max 0 (p.2.1 - a * 0.5), min 1 (p.2.2 + a))

/-! ## Spec-side model of the fallback classifier (§4.5 of the spec)

These definitions follow the spec's words, to be compared with
`fallback_prediction` above (refinement check for the fallback claim). -/

/-- Modelled from the spec's §4.5 decision order: the label and base
confidence chosen by the six-branch first-match-wins rule. -/
def specFallbackLabelBase (s : RawStats) : String × ℤ :=
  if green_dominance s > 0.04 ∧ yellow_tint s < 0.08 ∧ dryness s < 0.55
      ∧ (0.30 < brightness s ∧ brightness s < 0.85) then ("Healthy Crop", 82)
  else if s.std_rgb > 0.20 then ("Leaf Spot", 65)
  else if yellow_tint s > 0.18 then ("Nutrient Deficiency", 67)
  else if dryness s > 0.55 ∧ brightness s < 0.45 then ("Leaf Blight", 66)
  else if green_dominance s < -0.08 ∧ s.mean_r > 0.4 then ("Rust", 66)
  else ("Powdery Mildew", 64)

/-- Modelled from the spec's §4.5 confidence formula:
`base + floor((|green_dominance| + std_rgb_mean + rng_boost) * 20)`,
clamped to `[60, 93]`. -/
def specFallbackConfidence (s : RawStats) (md5v : ℕ) : ℤ :=
  max 60 (min 93 ((specFallbackLabelBase s).2
    + ⌊(|green_dominance s| + s.std_rgb + rng_boost md5v) * 20⌋))

/-! ## Helper lemmas -/

/-- A symptom set has some flag set iff its symptom count is positive. -/
theorem hasAny_iff_count (f : Symptoms) :
    hasAnySymptom f = true ↔ 0 < symptomCount f := by
  obtain ⟨d, c, n, w, a⟩ := f
  cases d <;> cases c <;> cases n <;> cases w <;> cases a <;>
    simp [hasAnySymptom, symptomCount]

/-- Python `int` agrees with `floor` on nonnegative arguments. -/
theorem pyInt_eq_floor {q : ℚ} (h : 0 ≤ q) : pyInt q = ⌊q⌋ := by
  rw [pyInt, if_neg (not_lt.mpr h)]

/-- The fallback tie-breaker is nonnegative. -/
theorem rng_boost_nonneg (m : ℕ) : 0 ≤ rng_boost m := by
  unfold rng_boost
  positivity

/-- A list starts with any of its own prefixes. -/
theorem lstartsWith_append (p t : List Char) : lstartsWith p (p ++ t) = true := by
  induction p with
  | nil => rfl
  | cons c cs ih => simp [lstartsWith, ih]

/-- Characters of a matched pattern occur in the matched list. -/
theorem mem_of_lstartsWith {pat l : List Char} {ch : Char}
    (hm : ch ∈ pat) (h : lstartsWith pat l = true) : ch ∈ l := by
  induction pat generalizing l with
  | nil => cases hm
  | cons p ps ih =>
    cases l with
    | nil => simp [lstartsWith] at h
    | cons c cs =>
      simp only [lstartsWith, Bool.and_eq_true, beq_iff_eq] at h
      rcases List.mem_cons.mp hm with rfl | hm
      · exact h.1 ▸ List.mem_cons_self _ _
      · exact List.mem_cons_of_mem _ (ih hm h.2)

/-- A separator containing a character absent from the list never splits
it. -/
theorem splitFirst_eq_none_of_notMem {sep l : List Char} {ch : Char}
    (hm : ch ∈ sep) (hl : ch ∉ l) : splitFirst sep l = none := by
  induction l with
  | nil => rfl
  | cons c cs ih =>
    have h1 : lstartsWith sep (c :: cs) = false := by
      cases hs : lstartsWith sep (c :: cs)
      · rfl
      · exact absurd (mem_of_lstartsWith hm hs) hl
    have h2 : splitFirst sep cs = none :=
      ih (fun h => hl (List.mem_cons_of_mem _ h))
    simp only [splitFirst, h1, Bool.false_eq_true, if_false, h2]

/-- Field values of `fallback_prediction` (the dictionary is literal). -/
theorem fallback_fields (s : RawStats) (md5v : ℕ) (reason : String)
    (crop : Option String) :
    getField (fallback_prediction s md5v reason crop) "healthStatus" = none
    ∧ getField (fallback_prediction s md5v reason crop) "disease"
        = some (JVal.str (fallbackChoice s).1)
    ∧ getField (fallback_prediction s md5v reason crop) "prediction"
        = some (JVal.str (fallbackChoice s).1)
    ∧ getField (fallback_prediction s md5v reason crop) "confidence"
        = some (JVal.num ((fallbackConfInt s md5v : ℤ) : ℚ))
    ∧ getField (fallback_prediction s md5v reason crop) "modelVersion"
        = some (JVal.str ("heuristic_fallback ("
            ++ (if reason = "" then "no_model" else reason) ++ ")"))
    ∧ getField (fallback_prediction s md5v reason crop) "cropType"
        = some (optStrJ crop) :=
  ⟨rfl, rfl, rfl, rfl, rfl, rfl⟩

/-- Health-status field of the healthy short-circuit dictionary. -/
theorem healthyResult_healthStatus (s : RawStats) (probs : List ℚ)
    (lbl : ℕ → Option String) :
    getField (healthyResult s probs lbl) "healthStatus"
      = some (JVal.str "healthy") := rfl

/-- Health-status field of the Stage-2 unhealthy dictionary. -/
theorem unhealthyResult_healthStatus (p : ParsedLabel) (conf : ℚ) :
    getField (unhealthyResult p conf) "healthStatus"
      = some (JVal.str "unhealthy") := rfl

/-- Confidence field of the unhealthy result dictionary. -/
theorem unhealthyResult_confidence (p : ParsedLabel) (conf : ℚ) :
    getField (unhealthyResult p conf) "confidence"
      = some (JVal.num (round2 conf)) := rfl

/-! ## Claim C2 (corrected): shape of fallback results -/

/-- C2 counterexample: a fallback result (here: the `model_missing` path on
a mid-gray image) carries no `healthStatus` field at all, so it is not a
fully §6-shaped `DiagnosisResult`. -/
theorem claim2_counterexample :
    getField (fallback_prediction ⟨0.5, 0.5, 0.5, 0⟩ 0 "model_missing" none)
      "healthStatus" = none := by decide

/-- C2 (amended): every fallback result is a fixed-shape dictionary with
exactly the keys `prediction, disease, confidence, modelVersion, cropType,
cause, suggestions, prevention` — all §6 output fields except
`healthStatus` (and `note`) — and its confidence is an integer clamped to
`[60, 93] ⊆ [0, 100]` rather than a 2-decimal float. -/
theorem claim2_fallback_shape (s : RawStats) (md5v : ℕ) (reason : String)
    (crop : Option String) :
    (fallback_prediction s md5v reason crop).map Prod.fst
      = ["prediction", "disease", "confidence", "modelVersion", "cropType",
         "cause", "suggestions", "prevention"]
    ∧ getField (fallback_prediction s md5v reason crop) "healthStatus" = none
    ∧ ∃ n : ℤ, getField (fallback_prediction s md5v reason crop) "confidence"
          = some (JVal.num (n : ℚ))
        ∧ 60 ≤ n ∧ n ≤ 93 ∧ (0 : ℚ) ≤ (n : ℚ) ∧ (n : ℚ) ≤ 100 := by
  refine ⟨rfl, rfl, fallbackConfInt s md5v, rfl, ?_, ?_, ?_, ?_⟩
  · exact le_max_left _ _
  · exact max_le (by norm_num) (min_le_right _ _)
  · have h : (0 : ℤ) ≤ fallbackConfInt s md5v :=
      le_trans (by norm_num) (le_max_left 60 _)
    exact_mod_cast h
  · have h : fallbackConfInt s md5v ≤ (100 : ℤ) :=
      le_trans (max_le (by norm_num) (min_le_right _ _)) (by norm_num)
    exact_mod_cast h

/-! ## Claim C7 (corrected): adjustment-magnitude formulas -/

/-- C7 counterexample: no base magnitude makes the multi-modal adjustment
fit the claimed form `base * (0.6 + (idx mod N) * 0.1)` — already its values
at crop indices 0 and 1 (0.075 and 0.09) are inconsistent with it for every
choice of `base` and modulus `N`. -/
theorem claim7_counterexample :
    ¬ ∃ (b : ℚ) (N : ℕ), 0 < N
      ∧ multiCropAdjustment 0 = b * (0.6 + ((0 % N : ℕ) : ℚ) * 0.1)
      ∧ multiCropAdjustment 1 = b * (0.6 + ((1 % N : ℕ) : ℚ) * 0.1) := by
  rintro ⟨b, N, hN, h0, h1⟩
  rw [Nat.zero_mod] at h0
  have h0' : (3 / 40 : ℚ) = b * (3 / 5) := by
    rw [multiCropAdjustment] at h0
    push_cast at h0
    linarith
  rcases Nat.lt_or_ge 1 N with h | h
  · rw [Nat.mod_eq_of_lt h] at h1
    have h1' : (9 / 100 : ℚ) = b * (7 / 10) := by
      rw [multiCropAdjustment] at h1
      push_cast at h1
      linarith
    linarith
  · have hN1 : N = 1 := by omega
    subst hN1
    rw [show 1 % 1 = 0 from rfl] at h1
    have h1' : (9 / 100 : ℚ) = b * (3 / 5) := by
      rw [multiCropAdjustment] at h1
      push_cast at h1
      linarith
    linarith

/-- C7 (amended): the adjustment magnitude is
`base * (offset + (crop index mod N) * 0.1)` with all three constants
path-specific: `(base, offset, N) = (0.30, 0.6, 9)` on the legacy path and
`(0.15, 0.5, 10)` on the multi-modal path — the offset differs as well, not
only `N` and the base magnitude. -/
theorem claim7_magnitudes (idx : ℕ) :
    legacyCropAdjustment idx
        = (30 / 100) * ((6 / 10) + ((idx % 9 : ℕ) : ℚ) * (1 / 10))
    ∧ multiCropAdjustment idx
        = (15 / 100) * ((5 / 10) + ((idx % 10 : ℕ) : ℚ) * (1 / 10)) := by
  constructor
  · rw [legacyCropAdjustment]; norm_num
  · rw [multiCropAdjustment]; norm_num

/-! ## Claim C8 (corrected): corn-to-maize normalization -/

/-- C8 counterexample: the Stage-2 label parser `_humanize_label` yields the
crop token `corn`, not `maize`, on `Corn_(maize)___Common_rust_`. -/
theorem claim8_counterexample :
    (_humanize_label "Corn_(maize)___Common_rust_").crop = some "corn"
    ∧ (_humanize_label "Corn_(maize)___Common_rust_").crop ≠ some "maize" := by
  exact ⟨by decide, by decide⟩

/-- C8 (amended): the corn-to-maize normalization is implemented in
`_derive_crop_from_label` — the crop-derivation helper used on the Stage-1
healthy path — which maps corn spellings to the canonical `maize`; the
Stage-2 parser `_humanize_label` instead returns the cleaned token
`corn`. -/
theorem claim8_crop_normalization :
    _derive_crop_from_label "Corn_(maize)___Common_rust_" = some "maize"
    ∧ _derive_crop_from_label "corn___Common_rust_" = some "maize"
    ∧ _derive_crop_from_label "CORN__Gray_leaf_spot" = some "maize"
    ∧ _derive_crop_from_label "Corn_Common_rust" = some "maize"
    ∧ (_humanize_label "Corn_(maize)___Common_rust_").crop = some "corn" := by
  exact ⟨by decide, by decide, by decide, by decide, by decide⟩

/-! ## Claim C9: determinism -/

/-- C9: with the external collaborators fixed (they are pure functions of
the image bytes: PIL resize, the CNN forward pass and MD5 carry no hidden
state), `predict_disease` returns identical confidence and disease /
prediction labels for identical image bytes; the crop adjustment of
`analyze_image` likewise depends only on the declared crop type and the
probability vector; and the fallback tie-breaker is exactly
`(md5 % 23) / 40` on the resized pixel buffer. -/
theorem claim9_determinism :
    (∀ (env : PipelineEnv) (img1 img2 : List ℕ), img1 = img2 →
        getField (diagnose env img1) "confidence"
            = getField (diagnose env img2) "confidence"
          ∧ getField (diagnose env img1) "disease"
            = getField (diagnose env img2) "disease"
          ∧ getField (diagnose env img1) "prediction"
            = getField (diagnose env img2) "prediction")
    ∧ (∀ (crop1 crop2 : String) (p : ℚ × ℚ × ℚ), crop1 = crop2 →
        multiAdjust (get_crop_type_index crop1) p
            = multiAdjust (get_crop_type_index crop2) p
          ∧ legacyAdjust (get_crop_type_index crop1) p
            = legacyAdjust (get_crop_type_index crop2) p)
    ∧ (∀ (env : PipelineEnv) (img : List ℕ),
        rng_boost (env.md5 (env.buf128 img))
          = ((env.md5 (env.buf128 img) % 23 : ℕ) : ℚ) / 40) := by
  refine ⟨fun env i1 i2 h => ?_, fun c1 c2 p h => ?_, fun env img => rfl⟩
  · subst h
    exact ⟨rfl, rfl, rfl⟩
  · subst h
    exact ⟨rfl, rfl⟩

/-- A trivial concrete collaborator environment for witnesses. -/
def envTriv : PipelineEnv :=
  ⟨fun _ => ⟨0.5, 0.5, 0.5, 0⟩, id, fun b => b.length, fun _ => [0.5, 0.5],
   fun _ => some "Tomato___healthy"⟩

/-- C9 witness: the determinism theorem applied at a concrete environment,
image and crop. -/
theorem claim9_determinism_witness :
    ([0, 1, 2] = ([0, 1, 2] : List ℕ) ∧ "Maize" = "Maize")
    ∧ getField (diagnose envTriv [0, 1, 2]) "confidence"
        = getField (diagnose envTriv [0, 1, 2]) "confidence"
    ∧ multiAdjust (get_crop_type_index "Maize") (0.2, 0.3, 0.5)
        = multiAdjust (get_crop_type_index "Maize") (0.2, 0.3, 0.5) :=
  ⟨⟨rfl, rfl⟩, (claim9_determinism.1 envTriv [0, 1, 2] [0, 1, 2] rfl).1,
   (claim9_determinism.2.1 "Maize" "Maize" (0.2, 0.3, 0.5) rfl).1⟩

/-! ## Claim C3: Stage-2 confidence capping -/

/-- C3: in Stage 2, a non-healthy parsed label with model confidence above
80 and fewer than 2 symptom flags is emitted with confidence exactly 80. -/
theorem claim3_confidence_cap (s : RawStats) (md5v : ℕ) (probs : List ℚ)
    (lbl : ℕ → Option String)
    (hg : isUnhealthyGate s probs lbl = true)
    (hh : (_humanize_label (rawLabel probs lbl)).is_healthy = false)
    (hc : 80 < topConf probs)
    (hs : symptomCount (detectFlags s) < 2) :
    getField (predict_disease s md5v probs lbl) "confidence"
      = some (JVal.num 80) := by
  unfold predict_disease
  rw [hg]
  rw [if_pos rfl, if_neg (by linarith : ¬ topConf probs < 30)]
  have hcond : ¬(_humanize_label (rawLabel probs lbl)).is_healthy = true
      ∧ 80 < topConf probs ∧ symptomCount (detectFlags s) < 2 :=
    ⟨by rw [hh]; simp, hc, hs⟩
  rw [if_pos hcond, unhealthyResult_confidence]
  have h80 : round2 (80 : ℚ) = 80 := by with_unfolding_all decide
  rw [h80]

/-- Concrete inputs for the confidence-cap witness: clean green-ish
statistics with no symptom flags and a 95%-confident blight label. -/
def statsC3 : RawStats := ⟨0.2, 0.5, 0.5, 0⟩

/-- Class map holding only a tomato blight class. -/
def lblTomato : ℕ → Option String :=
  fun n => if n = 0 then some "Tomato___Late_blight" else none

/-- C3 witness: symptom_count 0, raw confidence 95, emitted confidence
exactly 80. -/
theorem claim3_confidence_cap_witness :
    (isUnhealthyGate statsC3 [0.95, 0.05] lblTomato = true
      ∧ (_humanize_label (rawLabel [0.95, 0.05] lblTomato)).is_healthy = false
      ∧ 80 < topConf [0.95, 0.05]
      ∧ symptomCount (detectFlags statsC3) < 2)
    ∧ getField (predict_disease statsC3 7 [0.95, 0.05] lblTomato) "confidence"
        = some (JVal.num 80) :=
  ⟨⟨by with_unfolding_all decide, by with_unfolding_all decide,
      by with_unfolding_all decide, by with_unfolding_all decide⟩,
    claim3_confidence_cap statsC3 7 [0.95, 0.05] lblTomato
      (by with_unfolding_all decide) (by with_unfolding_all decide)
      (by with_unfolding_all decide) (by with_unfolding_all decide)⟩

/-! ## Claim C4: low-confidence fallback with crop pass-through -/

/-- C4: in Stage 2, a top-1 confidence below 30 discards the model result:
the returned value is the heuristic fallback, its `modelVersion` starts
with `heuristic_fallback`, and its `cropType` is the crop parsed from the
discarded top-1 label (in particular non-null whenever that parse yields a
crop token). -/
theorem claim4_low_conf_fallback (s : RawStats) (md5v : ℕ) (probs : List ℚ)
    (lbl : ℕ → Option String)
    (hg : isUnhealthyGate s probs lbl = true)
    (hlow : topConf probs < 30) :
    predict_disease s md5v probs lbl
        = fallback_prediction s md5v
            ("low_conf(" ++ fmt1f (topConf probs) ++ ")")
            (_humanize_label (rawLabel probs lbl)).crop
    ∧ (∃ mv : String,
        getField (predict_disease s md5v probs lbl) "modelVersion"
            = some (JVal.str mv)
          ∧ lstartsWith "heuristic_fallback".data mv.data = true)
    ∧ getField (predict_disease s md5v probs lbl) "cropType"
        = some (optStrJ (_humanize_label (rawLabel probs lbl)).crop)
    ∧ ∀ c : String, (_humanize_label (rawLabel probs lbl)).crop = some c →
        getField (predict_disease s md5v probs lbl) "cropType"
          = some (JVal.str c) := by
  have heq : predict_disease s md5v probs lbl
      = fallback_prediction s md5v
          ("low_conf(" ++ fmt1f (topConf probs) ++ ")")
          (_humanize_label (rawLabel probs lbl)).crop := by
    unfold predict_disease
    rw [hg, if_pos rfl, if_pos hlow]
  refine ⟨heq, ⟨"heuristic_fallback ("
      ++ (if ("low_conf(" ++ fmt1f (topConf probs) ++ ")") = ""
          then "no_model" else "low_conf(" ++ fmt1f (topConf probs) ++ ")")
      ++ ")", ?_, ?_⟩, ?_, ?_⟩
  · rw [heq]
    exact (fallback_fields _ _ _ _).2.2.2.2.1
  · have h1 : "heuristic_fallback (".data
        = "heuristic_fallback".data ++ " (".data := by decide
    simp only [String.data_append, h1, List.append_assoc]
    exact lstartsWith_append _ _
  · rw [heq]
    exact (fallback_fields _ _ _ _).2.2.2.2.2
  · intro c hcrop
    rw [heq, (fallback_fields _ _ _ _).2.2.2.2.2, hcrop]
    rfl

/-- Concrete inputs for the low-confidence witness: heavily symptomatic
statistics and a 25%-confident corn rust label. -/
def statsC4 : RawStats := ⟨0.5, 0.1, 0.5, 0.3⟩

/-- Class map holding only a corn rust class. -/
def lblCorn : ℕ → Option String :=
  fun n => if n = 0 then some "Corn_(maize)___Common_rust_" else none

/-- C4 witness: top-1 confidence 25, the result's `cropType` equals the
crop parsed from the discarded label. -/
theorem claim4_low_conf_fallback_witness :
    (isUnhealthyGate statsC4 [0.25] lblCorn = true
      ∧ topConf [0.25] < 30
      ∧ (_humanize_label (rawLabel [0.25] lblCorn)).crop = some "corn")
    ∧ getField (predict_disease statsC4 9 [0.25] lblCorn) "cropType"
        = some (JVal.str "corn") :=
  ⟨⟨by with_unfolding_all decide, by with_unfolding_all decide,
      by with_unfolding_all decide⟩,
    (claim4_low_conf_fallback statsC4 9 [0.25] lblCorn
      (by with_unfolding_all decide)
      (by with_unfolding_all decide)).2.2.2 "corn"
      (by with_unfolding_all decide)⟩

/-! ## Claim C5: fallback classifier refines the spec's §4.5 -/

/-- The source's fallback branch structure coincides with the spec-side
model of §4.5 (labels and base confidences). -/
theorem fallbackChoice_eq_spec (s : RawStats) :
    (fallbackChoice s).1 = (specFallbackLabelBase s).1
    ∧ (fallbackChoice s).2.2 = (specFallbackLabelBase s).2 := by
  unfold fallbackChoice specFallbackLabelBase
  split_ifs <;> exact ⟨rfl, rfl⟩

/-- C5: for every input (with the nonnegative standard deviation that numpy
guarantees), `fallback_prediction` selects its label by the §4.5 six-branch
first-match-wins order and emits confidence
`base + floor((|green_dominance| + std_rgb + rng_boost) * 20)` clamped to
`[60, 93]`. -/
theorem claim5_fallback_matches_spec (s : RawStats) (md5v : ℕ)
    (reason : String) (crop : Option String) (hstd : 0 ≤ s.std_rgb) :
    getField (fallback_prediction s md5v reason crop) "disease"
        = some (JVal.str (specFallbackLabelBase s).1)
    ∧ getField (fallback_prediction s md5v reason crop) "prediction"
        = some (JVal.str (specFallbackLabelBase s).1)
    ∧ getField (fallback_prediction s md5v reason crop) "confidence"
        = some (JVal.num ((specFallbackConfidence s md5v : ℤ) : ℚ)) := by
  have hbase := fallbackChoice_eq_spec s
  have hx : 0 ≤ (|green_dominance s| + s.std_rgb + rng_boost md5v) * 20 := by
    have h1 := abs_nonneg (green_dominance s)
    have h2 := rng_boost_nonneg md5v
    have : (0 : ℚ) ≤ |green_dominance s| + s.std_rgb + rng_boost md5v := by linarith
    linarith
  have hconf : fallbackConfInt s md5v = specFallbackConfidence s md5v := by
    unfold fallbackConfInt specFallbackConfidence
    rw [pyInt_eq_floor hx, hbase.2, min_comm]
  refine ⟨?_, ?_, ?_⟩
  · rw [(fallback_fields _ _ _ _).2.1, hbase.1]
  · rw [(fallback_fields _ _ _ _).2.2.1, hbase.1]
  · rw [(fallback_fields _ _ _ _).2.2.2.1, hconf]

/-- C5 witness: the refinement theorem applied at concrete statistics (a
Leaf Spot branch input). -/
theorem claim5_fallback_matches_spec_witness :
    ((0 : ℚ) ≤ statsC4.std_rgb)
    ∧ getField (fallback_prediction statsC4 7 "model_missing" (some "corn"))
        "disease" = some (JVal.str (specFallbackLabelBase statsC4).1) :=
  ⟨by with_unfolding_all decide,
    (claim5_fallback_matches_spec statsC4 7 "model_missing" (some "corn")
      (by with_unfolding_all decide)).1⟩

/-! ## Claim C1: the Stage-1 health-gate decision rule -/

/-- C1: the pipeline classifies Unhealthy (its `healthStatus` output is not
`healthy`) iff `unhealthy_score = top1*100 + 8*symptom_count` is at least
`healthy_score_combined = 0.6*(health_score + max(0, green_dominance*90)) +
0.4*healthy_conf_model` and additionally some symptom flag is set or the
top-1 probability is at least 0.70; in particular every input with no
symptom flags and top-1 probability 0.5 is classified Healthy. -/
theorem claim1_stage1_health_gate :
    (∀ (s : RawStats) (md5v : ℕ) (probs : List ℚ) (lbl : ℕ → Option String),
      getField (predict_disease s md5v probs lbl) "healthStatus"
          ≠ some (JVal.str "healthy")
        ↔ (0.6 * (healthScore s + max 0 (green_dominance s * 90))
              + 0.4 * healthyConfModel probs lbl
            ≤ topProb probs * 100 + (symptomCount (detectFlags s) : ℚ) * 8
          ∧ (0 < symptomCount (detectFlags s) ∨ (0.70 : ℚ) ≤ topProb probs)))
    ∧ (∀ (s : RawStats) (md5v : ℕ) (probs : List ℚ) (lbl : ℕ → Option String),
        symptomCount (detectFlags s) = 0 → topProb probs = 0.5 →
        getField (predict_disease s md5v probs lbl) "healthStatus"
          = some (JVal.str "healthy")) := by
  have hconv : ∀ (s : RawStats) (probs : List ℚ) (lbl : ℕ → Option String),
      isUnhealthyGate s probs lbl = true ↔
        (0.6 * (healthScore s + max 0 (green_dominance s * 90))
            + 0.4 * healthyConfModel probs lbl
          ≤ topProb probs * 100 + (symptomCount (detectFlags s) : ℚ) * 8
        ∧ (0 < symptomCount (detectFlags s) ∨ (0.70 : ℚ) ≤ topProb probs)) := by
    intro s probs lbl
    rw [isUnhealthyGate, Bool.and_eq_true, Bool.or_eq_true, decide_eq_true_iff,
      decide_eq_true_iff, healthyScoreCombined, unhealthyScore, topConf,
      hasAny_iff_count]
    constructor
    · rintro ⟨h1, h2⟩
      exact ⟨h1, h2.imp id (fun h => by linarith)⟩
    · rintro ⟨h1, h2⟩
      exact ⟨h1, h2.imp id (fun h => by linarith)⟩
  constructor
  · intro s md5v probs lbl
    rw [← hconv s probs lbl]
    unfold predict_disease
    by_cases hg : isUnhealthyGate s probs lbl = true
    · rw [hg, if_pos rfl]
      simp only [hg, iff_true]
      by_cases hlow : topConf probs < 30
      · rw [if_pos hlow, (fallback_fields _ _ _ _).1]
        simp
      · rw [if_neg hlow, unhealthyResult_healthStatus]
        simp
    · have hg' : isUnhealthyGate s probs lbl = false := by
        cases h : isUnhealthyGate s probs lbl
        · rfl
        · exact absurd h hg
      rw [hg', if_neg Bool.false_ne_true, healthyResult_healthStatus]
      simp [hg']
  · intro s md5v probs lbl hc hp
    have hB : hasAnySymptom (detectFlags s) = false := by
      cases h : hasAnySymptom (detectFlags s)
      · rfl
      · have := (hasAny_iff_count (detectFlags s)).mp h
        omega
    have hC : topConf probs = 50 := by
      rw [topConf, hp]
      norm_num
    have h70 : decide ((70 : ℚ) ≤ (50 : ℚ)) = false := by
      rw [decide_eq_false_iff_not]
      norm_num
    have hg : isUnhealthyGate s probs lbl = false := by
      rw [isUnhealthyGate, hB, hC, h70]
      simp
    unfold predict_disease
    rw [hg, if_neg Bool.false_ne_true]
    exact healthyResult_healthStatus s probs lbl

/-- C1 witness: clean statistics (no symptom flags) with top-1 probability
exactly 0.5 are classified Healthy. -/
theorem claim1_stage1_health_gate_witness :
    (symptomCount (detectFlags statsC3) = 0 ∧ topProb [0.5, 0.5] = 0.5)
    ∧ getField (predict_disease statsC3 3 [0.5, 0.5] lblTomato) "healthStatus"
        = some (JVal.str "healthy") :=
  ⟨⟨by with_unfolding_all decide, by with_unfolding_all decide⟩,
    claim1_stage1_health_gate.2 statsC3 3 [0.5, 0.5] lblTomato
      (by with_unfolding_all decide) (by with_unfolding_all decide)⟩

/-! ## Claim C6: the adjusted vector is (almost) a distribution -/

/-- A 3-way vector with all entries in `[0,1]` whose sum is 1 within
`1e-6`. -/
def isAdjustedDistribution (q : ℚ × ℚ × ℚ) : Prop :=
  0 ≤ q.1 ∧ q.1 ≤ 1 ∧ 0 ≤ q.2.1 ∧ q.2.1 ≤ 1 ∧ 0 ≤ q.2.2 ∧ q.2.2 ≤ 1
    ∧ |q.1 + q.2.1 + q.2.2 - 1| ≤ 1 / 1000000

/-- Normalizing nonnegative entries whose sum is at least `1/100` yields an
adjusted distribution. -/
theorem normalize3_bounds (q0 q1 q2 : ℚ) (h0 : 0 ≤ q0) (h1 : 0 ≤ q1)
    (h2 : 0 ≤ q2) (hl : 1 / 100 ≤ q0 + q1 + q2) :
    isAdjustedDistribution (normalize3 (q0, q1, q2)) := by
  have he : (0 : ℚ) < 1e-8 := by norm_num
  have he' : (1e-8 : ℚ) = 1 / 100000000 := by norm_num
  have hS : (0 : ℚ) < q0 + q1 + q2 + 1e-8 := by linarith
  unfold isAdjustedDistribution normalize3
  refine ⟨div_nonneg h0 hS.le, ?_, div_nonneg h1 hS.le, ?_,
    div_nonneg h2 hS.le, ?_, ?_⟩
  · rw [div_le_one hS]; linarith
  · rw [div_le_one hS]; linarith
  · rw [div_le_one hS]; linarith
  · have hsum : q0 / (q0 + q1 + q2 + 1e-8) + q1 / (q0 + q1 + q2 + 1e-8)
        + q2 / (q0 + q1 + q2 + 1e-8) = (q0 + q1 + q2) / (q0 + q1 + q2 + 1e-8) :=
      by ring
    have hle : (q0 + q1 + q2) / (q0 + q1 + q2 + 1e-8) ≤ 1 := by
      rw [div_le_one hS]; linarith
    have heq : 1 - (q0 + q1 + q2) / (q0 + q1 + q2 + 1e-8)
        = (1e-8 : ℚ) / (q0 + q1 + q2 + 1e-8) := by
      field_simp
    have hfin : (1e-8 : ℚ) / (q0 + q1 + q2 + 1e-8) ≤ 1 / 1000000 := by
      rw [div_le_iff hS, he']
      nlinarith
    calc |q0 / (q0 + q1 + q2 + 1e-8) + q1 / (q0 + q1 + q2 + 1e-8)
            + q2 / (q0 + q1 + q2 + 1e-8) - 1|
        = |(q0 + q1 + q2) / (q0 + q1 + q2 + 1e-8) - 1| := by rw [hsum]
      _ = 1 - (q0 + q1 + q2) / (q0 + q1 + q2 + 1e-8) := by
            rw [abs_of_nonpos (by linarith), neg_sub]
      _ = (1e-8 : ℚ) / (q0 + q1 + q2 + 1e-8) := heq
      _ ≤ 1 / 1000000 := hfin

/-- Bounds for the multi-modal-path adjustment magnitude. -/
theorem multiCropAdjustment_bounds (idx : ℕ) :
    3 / 40 ≤ multiCropAdjustment idx ∧ multiCropAdjustment idx ≤ 1 := by
  have hbd : ((idx % 10 : ℕ) : ℚ) ≤ 9 := by
    have h : idx % 10 < 10 := Nat.mod_lt _ (by norm_num)
    exact_mod_cast Nat.le_of_lt_succ h
  have h0 : (0 : ℚ) ≤ ((idx % 10 : ℕ) : ℚ) := Nat.cast_nonneg _
  rw [multiCropAdjustment]
  constructor <;> nlinarith

/-- Bounds for the legacy-path adjustment magnitude. -/
theorem legacyCropAdjustment_bounds (idx : ℕ) :
    9 / 50 ≤ legacyCropAdjustment idx ∧ legacyCropAdjustment idx ≤ 1 := by
  have hbd : ((idx % 9 : ℕ) : ℚ) ≤ 8 := by
    have h : idx % 9 < 9 := Nat.mod_lt _ (by norm_num)
    exact_mod_cast Nat.le_of_lt_succ h
  have h0 : (0 : ℚ) ≤ ((idx % 9 : ℕ) : ℚ) := Nat.cast_nonneg _
  rw [legacyCropAdjustment]
  constructor <;> nlinarith

/-- The multi-modal crop adjustment maps `[0,1]` entries to an adjusted
distribution. -/
theorem multiAdjust_bounds (idx : ℕ) (p0 p1 p2 : ℚ)
    (h00 : 0 ≤ p0) (h01 : p0 ≤ 1) (h10 : 0 ≤ p1) (h11 : p1 ≤ 1)
    (h20 : 0 ≤ p2) (h21 : p2 ≤ 1) :
    isAdjustedDistribution (multiAdjust idx (p0, p1, p2)) := by
  obtain ⟨ha0, ha1⟩ := multiCropAdjustment_bounds idx
  have h3 : idx % 3 = 0 ∨ idx % 3 = 1 ∨ idx % 3 = 2 := by omega
  rcases h3 with h | h | h <;>
    simp only [multiAdjust, h] <;> norm_num
  · exact normalize3_bounds _ _ _
      (le_min (by norm_num) (by linarith)) (le_max_left _ _) (le_max_left _ _)
      (by
        have hb : multiCropAdjustment idx ≤ min 1 (p0 + multiCropAdjustment idx) :=
          le_min ha1 (by linarith)
        have hc := le_max_left (0 : ℚ) (p1 - multiCropAdjustment idx * 0.7)
        have hd := le_max_left (0 : ℚ) (p2 - multiCropAdjustment idx * 0.5)
        linarith)
  · exact normalize3_bounds _ _ _
      (le_max_left _ _) (le_min (by norm_num) (by linarith)) (le_max_left _ _)
      (by
        have hb : multiCropAdjustment idx ≤ min 1 (p1 + multiCropAdjustment idx) :=
          le_min ha1 (by linarith)
        have hc := le_max_left (0 : ℚ) (p0 - multiCropAdjustment idx * 0.5)
        have hd := le_max_left (0 : ℚ) (p2 - multiCropAdjustment idx * 0.7)
        linarith)
  · exact normalize3_bounds _ _ _
      (le_max_left _ _) (le_max_left _ _) (le_min (by norm_num) (by linarith))
      (by
        have hb : multiCropAdjustment idx ≤ min 1 (p2 + multiCropAdjustment idx) :=
          le_min ha1 (by linarith)
        have hc := le_max_left (0 : ℚ) (p0 - multiCropAdjustment idx * 0.6)
        have hd := le_max_left (0 : ℚ) (p1 - multiCropAdjustment idx * 0.4)
        linarith)

/-- The legacy crop adjustment maps `[0,1]` entries to an adjusted
distribution. -/
theorem legacyAdjust_bounds (idx : ℕ) (p0 p1 p2 : ℚ)
    (h00 : 0 ≤ p0) (h01 : p0 ≤ 1) (h10 : 0 ≤ p1) (h11 : p1 ≤ 1)
    (h20 : 0 ≤ p2) (h21 : p2 ≤ 1) :
    isAdjustedDistribution (legacyAdjust idx (p0, p1, p2)) := by
  obtain ⟨ha0, ha1⟩ := legacyCropAdjustment_bounds idx
  have h3 : idx % 3 = 0 ∨ idx % 3 = 1 ∨ idx % 3 = 2 := by omega
  rcases h3 with h | h | h <;>
    simp only [legacyAdjust, h] <;> norm_num
  · exact normalize3_bounds _ _ _
      (le_min (by norm_num) (by linarith)) (le_max_left _ _) (le_max_left _ _)
      (by
        have hb : legacyCropAdjustment idx ≤ min 1 (p0 + legacyCropAdjustment idx) :=
          le_min ha1 (by linarith)
        have hc := le_max_left (0 : ℚ) (p1 - legacyCropAdjustment idx * 0.8)
        have hd := le_max_left (0 : ℚ) (p2 - legacyCropAdjustment idx * 0.6)
        linarith)
  · exact normalize3_bounds _ _ _
      (le_max_left _ _) (le_min (by norm_num) (by linarith)) (le_max_left _ _)
      (by
        have hb : legacyCropAdjustment idx ≤ min 1 (p1 + legacyCropAdjustment idx) :=
          le_min ha1 (by linarith)
        have hc := le_max_left (0 : ℚ) (p0 - legacyCropAdjustment idx * 0.6)
        have hd := le_max_left (0 : ℚ) (p2 - legacyCropAdjustment idx * 0.8)
        linarith)
  · exact normalize3_bounds _ _ _
      (le_max_left _ _) (le_max_left _ _) (le_min (by norm_num) (by linarith))
      (by
        have hb : legacyCropAdjustment idx ≤ min 1 (p2 + legacyCropAdjustment idx) :=
          le_min ha1 (by linarith)
        have hc := le_max_left (0 : ℚ) (p0 - legacyCropAdjustment idx * 0.7)
        have hd := le_max_left (0 : ℚ) (p1 - legacyCropAdjustment idx * 0.5)
        linarith)

/-- C6: for every known (non-`Unknown`) declared crop and every input 3-way
probability vector with entries in `[0,1]` summing to 1, both adjustment
paths of `analyze_image` output a vector with entries in `[0,1]` whose sum
is 1 within `1e-6`. -/
theorem claim6_adjusted_distribution (crop : String) (hne : crop ≠ "")
    (hnu : crop ≠ "Unknown") (p0 p1 p2 : ℚ)
    (h00 : 0 ≤ p0) (h01 : p0 ≤ 1) (h10 : 0 ≤ p1) (h11 : p1 ≤ 1)
    (h20 : 0 ≤ p2) (h21 : p2 ≤ 1) (hsum : p0 + p1 + p2 = 1) :
    isAdjustedDistribution (multiAdjust (get_crop_type_index crop) (p0, p1, p2))
    ∧ isAdjustedDistribution
        (legacyAdjust (get_crop_type_index crop) (p0, p1, p2)) :=
  ⟨multiAdjust_bounds _ p0 p1 p2 h00 h01 h10 h11 h20 h21,
   legacyAdjust_bounds _ p0 p1 p2 h00 h01 h10 h11 h20 h21⟩

/-- C6 witness: the distribution property at crop `Paddy` and the vector
`(1/2, 1/4, 1/4)`. -/
theorem claim6_adjusted_distribution_witness :
    (("Paddy" : String) ≠ "" ∧ ("Paddy" : String) ≠ "Unknown"
      ∧ (1 / 2 : ℚ) + 1 / 4 + 1 / 4 = 1)
    ∧ isAdjustedDistribution
        (multiAdjust (get_crop_type_index "Paddy") (1 / 2, 1 / 4, 1 / 4)) :=
  ⟨⟨by decide, by decide, by with_unfolding_all decide⟩,
    (claim6_adjusted_distribution "Paddy" (by decide) (by decide)
      (1 / 2) (1 / 4) (1 / 4)
      (by norm_num) (by norm_num) (by norm_num) (by norm_num) (by norm_num)
      (by norm_num) (by norm_num)).1⟩

/-! ## Claim C10 (corrected): labels without separators -/

/-- C10 counterexample: the label `(maize)` has no underscore and no
`healthy`, and its cleaned form is the empty string — there the parser
returns `none` as the crop type, not the (empty) cleaned label. -/
theorem claim10_counterexample :
    (_humanize_label "(maize)").crop = none
    ∧ (_humanize_label "(maize)").crop ≠ some "" := by
  exact ⟨by decide, by decide⟩

/-- Core form of the no-separator parse: with no underscore and no
`healthy` substring, the display name and disease key are empty and the
crop is the cleaned, lower-cased whole label when that is non-empty. -/
theorem humanizeCore_no_sep (l : List Char) (hu : '_' ∉ l)
    (hh : lcontains "healthy".data (toLowerL l) = false) :
    humanizeCore l
      = ([], (if cleanCore l = [] then none else some (toLowerL (cleanCore l))),
         [], false) := by
  have h3 : splitFirst "___".data l = none :=
    splitFirst_eq_none_of_notMem (show '_' ∈ "___".data by decide) hu
  have h2 : splitFirst "__".data l = none :=
    splitFirst_eq_none_of_notMem (show '_' ∈ "__".data by decide) hu
  have h1 : splitFirst "_".data l = none :=
    splitFirst_eq_none_of_notMem (show '_' ∈ "_".data by decide) hu
  have e1 : pyStrip (replaceAll "  ".data " ".data (cleanCore ([] : List Char)))
      = [] := rfl
  have e2 : lcontains "healthy".data (toLowerL ([] : List Char)) = false := rfl
  have e3 : pyStrip (List.drop (cleanCore l).length []) = [] := by
    rw [List.drop_nil]
    rfl
  simp only [humanizeCore, h3, h2, h1, e1, e2, hh, Bool.or_self, e3]
  cases hc : cleanCore l with
  | nil => simp [lstartsWith]
  | cons c cs => simp [lstartsWith]

/-- C10 (amended): for every raw label with no underscore and no `healthy`
substring (case-insensitive), `_humanize_label` returns empty display name
and disease key — so the recommendation lookup falls through to the generic
default entry — and returns the cleaned whole label, lower-cased, as the
crop type whenever that cleaned label is non-empty (`None` when cleaning
yields the empty string). -/
theorem claim10_no_separator (label : String)
    (hu : '_' ∉ label.data)
    (hh : lcontains "healthy".data (toLowerL label.data) = false) :
    _humanize_label label
      = ⟨"", (if cleanCore label.data = [] then none
              else some (String.mk (toLowerL (cleanCore label.data)))), "", false⟩
    ∧ _recommendations_for_label "" false
      = ⟨"Pathogen stress (fungal/bacterial).",
         "Use appropriate fungicide/bactericide, remove affected leaves, ensure airflow.",
         "Rotate crops, maintain sanitation, avoid waterlogging."⟩ := by
  constructor
  · unfold _humanize_label
    rw [humanizeCore_no_sep label.data hu hh]
    have em : String.mk ([] : List Char) = "" := rfl
    by_cases hc : cleanCore label.data = []
    · simp [hc, em]
    · simp [hc, em]
  · rfl

/-- C10 witness: the no-separator parse at the concrete label `tomato`. -/
theorem claim10_no_separator_witness :
    ('_' ∉ "tomato".data
      ∧ lcontains "healthy".data (toLowerL "tomato".data) = false)
    ∧ _humanize_label "tomato"
        = ⟨"", (if cleanCore "tomato".data = [] then none
                else some (String.mk (toLowerL (cleanCore "tomato".data)))),
           "", false⟩ :=
  ⟨⟨by decide, by decide⟩,
    (claim10_no_separator "tomato" (by decide) (by decide)).1⟩
